import Mathlib

/-!
Shallow embedding of the NeuroGuard patient-record application
(legacy vanilla-JS frontend in frontend/script.js and the localStorage
variant, plus the React/TypeScript frontend in frontend/services/api.ts,
pages/Dashboard.tsx, context/AuthContext.tsx), together with theorems
settling the frozen claims about its role-based authorization, session
model and client-side cache logic.
-/

/- ===================== Authorization policy ===================== -/

/-- Permission record, mirroring the objects stored in the `permissions`
tables of frontend/script.js (lines 11-15) and the localStorage app
(part_000 lines 22-26): fields canView, canAdd, canEdit, canDelete. -/
structure Perm where
  canView : Bool
  canAdd : Bool
  canEdit : Bool
  canDelete : Bool
  deriving DecidableEq, Repr

/-- Entry for role viewer in the permissions table of frontend/script.js:
view only. -/
def viewerPerm : Perm :=
  { canView := true, canAdd := false, canEdit := false, canDelete := false }

/-- Permissions mapping of frontend/script.js lines 11-15 (identical in
part_000 lines 22-26): three keys, administrator with all four permissions,
doctor with view and add only, viewer with view only. -/
def permissionsTable : List (String × Perm) :=
  [("administrator", { canView := true, canAdd := true, canEdit := true, canDelete := true }),
   ("doctor", { canView := true, canAdd := true, canEdit := false, canDelete := false }),
   ("viewer", viewerPerm)]

/-- Lookup of an own key of the `permissions` object literal: some entry
when the key is one of the three written properties, none otherwise. -/
def permissionsLookup (role : String) : Option Perm :=
  (permissionsTable.find? (fun kv => kv.1 == role)).map Prod.snd

/-- Property names every plain object literal inherits from
Object.prototype: the standard methods plus the Annex B legacy accessors.
Each of them holds a function (or, for the last one, an object), so the
inherited value is truthy. -/
def objectProtoNames : List String :=
  ["constructor", "hasOwnProperty", "isPrototypeOf", "propertyIsEnumerable",
   "toLocaleString", "toString", "valueOf", "__defineGetter__",
   "__defineSetter__", "__lookupGetter__", "__lookupSetter__", "__proto__"]

/-- Result of the JavaScript property access `permissions[key]`: one of
the own entries of the table, a member inherited from Object.prototype,
or undefined. -/
inductive PropAccess
  | own (p : Perm)
  | protoMember (name : String)
  | undef
  deriving DecidableEq, Repr

/-- Property access `permissions[key]` on the object literal: an own key
wins, otherwise the prototype chain is consulted, otherwise the access
yields undefined. -/
def permissionsAccess (key : String) : PropAccess :=
  match permissionsLookup key with
  | some p => PropAccess.own p
  | none =>
    if key ∈ objectProtoNames then PropAccess.protoMember key else PropAccess.undef

/-- JavaScript truthiness of an access result: objects and functions are
truthy, undefined is falsy. -/
def propTruthy : PropAccess → Bool
  | PropAccess.own _ => true
  | PropAccess.protoMember _ => true
  | PropAccess.undef => false

/-- getCurrentPermissions of frontend/script.js line 17 before field
projection: `permissions[userRole] || permissions.viewer`. userRole comes
from sessionStorage and may be null, which the bracket access coerces to
the key string "null"; the viewer fallback fires exactly when the access
result is falsy, so a truthy inherited Object.prototype member preempts
it. -/
def getCurrentPermsValue (userRole : Option String) : PropAccess :=
  let key :=
    match userRole with
    | some r => r
    | none => "null"
  let a := permissionsAccess key
  if propTruthy a then a else PropAccess.own viewerPerm

/-- Reading the four permission fields (by JavaScript truthiness, which is
all the guards ever test) off the value selected by the gate: a table
entry yields its stored booleans, while an inherited Object.prototype
member has none of the four fields, so every read yields undefined, hence
falsy. -/
def permFields : PropAccess → Perm
  | PropAccess.own p => p
  | PropAccess.protoMember _ =>
      { canView := false, canAdd := false, canEdit := false, canDelete := false }
  | PropAccess.undef =>
      { canView := false, canAdd := false, canEdit := false, canDelete := false }

/-- Observable permission set of getCurrentPermissions: the four field
reads on `permissions[userRole] || permissions.viewer`. -/
def getCurrentPermissions (userRole : Option String) : Perm :=
  permFields (getCurrentPermsValue userRole)

/-- Role enumeration of the specification: exactly two roles,
restrictedViewer (named "user" in the domain) and privilegedEditor
(named "doctor"). -/
inductive SpecRole
  | restrictedViewer
  | privilegedEditor
  deriving DecidableEq, Repr

/-- Modelled from the spec: the independent reference authorization table
of section 4.2 - restrictedViewer may only view, privilegedEditor has all
four permissions. -/
def specPolicy : SpecRole → Perm
  | SpecRole.restrictedViewer =>
      { canView := true, canAdd := false, canEdit := false, canDelete := false }
  | SpecRole.privilegedEditor =>
      { canView := true, canAdd := true, canEdit := true, canDelete := true }

/-- Modelled from the spec: domain name of each spec role ("user" and
"doctor"). -/
def specRoleName : SpecRole → String
  | SpecRole.restrictedViewer => "user"
  | SpecRole.privilegedEditor => "doctor"

/- ===================== React client: auth context ===================== -/

/-- User record of frontend/services/api.ts (interface User): id, username,
email and a role string ("user" or "doctor"). -/
structure AuthUser where
  id : Nat
  username : String
  email : String
  role : String
  deriving DecidableEq, Repr

/-- canModify of pages/Dashboard.tsx line 96:
`user?.role === 'doctor'`; false when user is null. -/
def canModify (user : Option AuthUser) : Bool :=
  match user with
  | some u => u.role == "doctor"
  | none => false

/-- Permission set realized by the Dashboard UI gate: the patient table is
rendered for every authenticated user (canView), while the Add Patient
button (Dashboard.tsx line 276), the Edit button and the Delete button
(line 351) are rendered exactly when canModify holds. -/
def dashboardPerms (user : Option AuthUser) : Perm :=
  { canView := true,
    canAdd := canModify user,
    canEdit := canModify user,
    canDelete := canModify user }

/-- Authentication response of api.ts (interface AuthResponse): a JWT
token string plus the user profile. -/
structure AuthResponse where
  token : String
  user : AuthUser
  deriving DecidableEq, Repr

/-- In-memory session state of context/AuthContext.tsx: the user field and
the token field of the AuthProvider. -/
structure AuthState where
  user : Option AuthUser
  token : Option String
  deriving DecidableEq, Repr

/-- JavaScript truthiness of the token field, as tested by `!!token` in
AuthContext.tsx line 545: null is falsy, the empty string is falsy, any
other string is truthy. -/
def credentialPresent (s : AuthState) : Bool :=
  match s.token with
  | none => false
  | some t => t != ""

/-- JavaScript truthiness of the user field, as tested by `!!user`:
null is falsy, any object is truthy. -/
def identityPresent (s : AuthState) : Bool :=
  s.user.isSome

/-- isAuthenticated of AuthContext.tsx line 545: `!!token && !!user`,
computed from the two state fields on every render, never stored. -/
def isAuthenticated (s : AuthState) : Bool :=
  credentialPresent s && identityPresent s

/-- Completed session-changing calls of AuthContext.tsx: login and
register either succeed with an AuthResponse or throw (the catch/finally
leaves the state untouched); logout always succeeds. -/
inductive AuthOp
  | loginOk (r : AuthResponse)
  | loginFail
  | registerOk (r : AuthResponse)
  | registerFail
  | logout
  deriving DecidableEq, Repr

/-- State transition of the AuthProvider operations (AuthContext.tsx lines
507-538): a successful login or register stores both res.user and
res.token; a failed one changes nothing (only isLoading is toggled);
logout clears both fields. -/
def applyAuthOp (op : AuthOp) (s : AuthState) : AuthState :=
  match op with
  | AuthOp.loginOk r => { user := some r.user, token := some r.token }
  | AuthOp.loginFail => s
  | AuthOp.registerOk r => { user := some r.user, token := some r.token }
  | AuthOp.registerFail => s
  | AuthOp.logout => { user := none, token := none }

/- ===================== Mutation orchestrator (script.js) ===================== -/

/-- Outcome of a form submission in frontend/script.js: either the
client-side permission guard fires (the alert message, no request sent),
or a single HTTP request is issued. -/
inductive MutationOutcome
  | permissionDenied (msg : String)
  | issued (method : String) (url : String)
  deriving DecidableEq, Repr

/-- handleFormSubmission of frontend/script.js lines 83-119, restricted to
the data relevant to the permission guard: isUpdate is the truthiness of
the hidden patientId field; an update without canEdit or a create without
canAdd alerts and returns before any fetch; otherwise one request (PUT to
the record url or POST to the collection url) is issued. The second
component counts the network calls issued by the mutation itself. -/
def handleFormSubmissionScript (userRole : Option String) (patientIdField : String) :
    MutationOutcome × Nat :=
  let isUpdate : Bool := patientIdField != ""
  let userPerms := getCurrentPermissions userRole
  if isUpdate && !userPerms.canEdit then
    (MutationOutcome.permissionDenied "Permission Denied: You cannot update records.", 0)
  else if !isUpdate && !userPerms.canAdd then
    (MutationOutcome.permissionDenied "Permission Denied: You cannot add new records.", 0)
  else
    let method := if isUpdate then "PUT" else "POST"
    let url := if isUpdate then "/api/patients/" ++ patientIdField else "/api/patients"
    (MutationOutcome.issued method url, 1)

/-- User-interface events of the React Dashboard that can lead to a
mutation: clicking the Add Patient button, clicking an Edit button,
closing the modal, and submitting the modal form. -/
inductive UiEvent
  | clickAdd
  | clickEdit
  | closeModal
  | submit
  deriving DecidableEq, Repr

/-- One step of the Dashboard UI around the patient modal
(pages/Dashboard.tsx and components/PatientModal.tsx): the Add and Edit
buttons exist only when canModify holds (lines 276 and 351), so clicking
them is a no-op otherwise; the modal form exists only while the modal is
open (PatientModal.tsx line 42 returns null when closed), so submit emits
a mutation request exactly when the modal is open. Returns the new
modal-open flag and the number of mutation requests emitted. -/
def dashboardUiStep (cm isOpen : Bool) : UiEvent → Bool × Nat
  | UiEvent.clickAdd => if cm then (true, 0) else (isOpen, 0)
  | UiEvent.clickEdit => if cm then (true, 0) else (isOpen, 0)
  | UiEvent.closeModal => (false, 0)
  | UiEvent.submit => if isOpen then (false, 1) else (isOpen, 0)

/-- Run of a sequence of Dashboard UI events from a given modal state,
accumulating the number of mutation requests emitted. -/
def dashboardUiRun (cm : Bool) : Bool → List UiEvent → Bool × Nat
  | isOpen, [] => (isOpen, 0)
  | isOpen, e :: es =>
    let step := dashboardUiStep cm isOpen e
    let rest := dashboardUiRun cm step.1 es
    (rest.1, step.2 + rest.2)

/- ===================== JSON values and JSON.parse ===================== -/

/-- JSON value, the result type of JSON.parse as used by the AuthProvider
to decode the identity entry of durable storage. -/
inductive Json
  | null
  | bool (b : Bool)
  | num (q : ℚ)
  | str (s : String)
  | arr (xs : List Json)
  | obj (kvs : List (String × Json))

/-- JavaScript truthiness of a JSON value, as tested by `!!user` after
JSON.parse: null and false are falsy, the number zero is falsy, the empty
string is falsy, every object and array is truthy. -/
def jsTruthy : Json → Bool
  | Json.null => false
  | Json.bool b => b
  | Json.num q => q != 0
  | Json.str s => s != ""
  | Json.arr _ => true
  | Json.obj _ => true

/-- Insignificant whitespace of the JSON grammar (space, tab, line feed,
carriage return), skipped between tokens. -/
def skipWs (cs : List Char) : List Char :=
  cs.dropWhile (fun c => c == ' ' || c == '\t' || c == '\n' || c == '\x0d')

/-- Value of a hexadecimal digit of a \u escape, none for a non-hex
character. -/
def hexVal (c : Char) : Option Nat :=
  if c.isDigit then some (c.toNat - 48)
  else if 'a' ≤ c ∧ c ≤ 'f' then some (c.toNat - 87)
  else if 'A' ≤ c ∧ c ≤ 'F' then some (c.toNat - 55)
  else none

/-- Body of a JSON string literal after the opening quote: ordinary
characters are accumulated, the escapes of the JSON grammar are decoded,
an unescaped control character or an unterminated literal is an error.
Returns the decoded string and the remaining input. -/
def jsonStringBody : List Char → List Char → Option (String × List Char)
  | acc, '\x22' :: cs => some (String.mk acc.reverse, cs)
  | acc, '\x5c' :: '\x22' :: cs => jsonStringBody ('\x22' :: acc) cs
  | acc, '\x5c' :: '\x5c' :: cs => jsonStringBody ('\x5c' :: acc) cs
  | acc, '\x5c' :: '/' :: cs => jsonStringBody ('/' :: acc) cs
  | acc, '\x5c' :: 'b' :: cs => jsonStringBody ('\x08' :: acc) cs
  | acc, '\x5c' :: 'f' :: cs => jsonStringBody ('\x0c' :: acc) cs
  | acc, '\x5c' :: 'n' :: cs => jsonStringBody ('\n' :: acc) cs
  | acc, '\x5c' :: 'r' :: cs => jsonStringBody ('\x0d' :: acc) cs
  | acc, '\x5c' :: 't' :: cs => jsonStringBody ('\t' :: acc) cs
  | acc, '\x5c' :: 'u' :: h1 :: h2 :: h3 :: h4 :: cs =>
    match hexVal h1, hexVal h2, hexVal h3, hexVal h4 with
    | some a, some b, some c, some d =>
      jsonStringBody (Char.ofNat (((a * 16 + b) * 16 + c) * 16 + d) :: acc) cs
    | _, _, _, _ => none
  | _, '\x5c' :: _ => none
  | acc, c :: cs => if c.toNat < 32 then none else jsonStringBody (c :: acc) cs
  | _, [] => none

/-- Numeric value of a list of decimal digit characters. -/
def digitsToNat (ds : List Char) : Nat :=
  ds.foldl (fun acc c => acc * 10 + (c.toNat - 48)) 0

/-- JSON number literal starting at the given input (first character is a
minus sign or a digit): optional sign, integer part without a leading
zero, optional fraction, optional exponent, evaluated exactly as a
rational. -/
def jsonNumber (cs : List Char) : Option (Json × List Char) :=
  let signed : Bool × List Char :=
    match cs with
    | '-' :: r => (true, r)
    | _ => (false, cs)
  let neg := signed.1
  let cs1 := signed.2
  let intDigits := cs1.takeWhile Char.isDigit
  let rest1 := cs1.dropWhile Char.isDigit
  if intDigits.isEmpty then none
  else if 1 < intDigits.length && intDigits.headD '0' == '0' then none
  else
    let fracParsed : Option (List Char × List Char) :=
      match rest1 with
      | '.' :: r =>
        let fd := r.takeWhile Char.isDigit
        if fd.isEmpty then none else some (fd, r.dropWhile Char.isDigit)
      | _ => some ([], rest1)
    match fracParsed with
    | none => none
    | some (fracDigits, rest2) =>
      let expParsed : Option (Bool × List Char × List Char) :=
        match rest2 with
        | 'e' :: r | 'E' :: r =>
          let signedE : Bool × List Char :=
            match r with
            | '-' :: r2 => (true, r2)
            | '+' :: r2 => (false, r2)
            | _ => (false, r)
          let ed := signedE.2.takeWhile Char.isDigit
          if ed.isEmpty then none
          else some (signedE.1, ed, signedE.2.dropWhile Char.isDigit)
        | _ => some (false, [], rest2)
      match expParsed with
      | none => none
      | some (expNeg, expDigits, rest3) =>
        let mant : ℚ :=
          (digitsToNat intDigits : ℚ) +
            (digitsToNat fracDigits : ℚ) / ((10 : ℚ) ^ fracDigits.length)
        let expNat := digitsToNat expDigits
        let scaled : ℚ :=
          if expNeg then mant / ((10 : ℚ) ^ expNat) else mant * ((10 : ℚ) ^ expNat)
        some (Json.num (if neg then -scaled else scaled), rest3)

mutual

/-- JSON value parser with fuel: literals, strings, numbers, arrays and
objects, mirroring the grammar accepted by JSON.parse; none models a
SyntaxError. -/
def jsonValue : Nat → List Char → Option (Json × List Char)
  | 0, _ => none
  | fuel + 1, cs =>
    match skipWs cs with
    | 'n' :: 'u' :: 'l' :: 'l' :: rest => some (Json.null, rest)
    | 't' :: 'r' :: 'u' :: 'e' :: rest => some (Json.bool true, rest)
    | 'f' :: 'a' :: 'l' :: 's' :: 'e' :: rest => some (Json.bool false, rest)
    | '\x22' :: rest =>
      match jsonStringBody [] rest with
      | some (s, r) => some (Json.str s, r)
      | none => none
    | '[' :: rest =>
      match skipWs rest with
      | ']' :: r2 => some (Json.arr [], r2)
      | r2 => jsonArrayElems fuel r2 []
    | '\x7b' :: rest =>
      match skipWs rest with
      | '\x7d' :: r2 => some (Json.obj [], r2)
      | r2 => jsonObjElems fuel r2 []
    | c :: rest => if c == '-' || c.isDigit then jsonNumber (c :: rest) else none
    | [] => none

/-- Elements of a nonempty JSON array after the opening bracket: values
separated by commas, terminated by a closing bracket. -/
def jsonArrayElems : Nat → List Char → List Json → Option (Json × List Char)
  | 0, _, _ => none
  | fuel + 1, cs, acc =>
    match jsonValue fuel cs with
    | none => none
    | some (v, r) =>
      match skipWs r with
      | ',' :: r2 => jsonArrayElems fuel r2 (v :: acc)
      | ']' :: r2 => some (Json.arr (v :: acc).reverse, r2)
      | _ => none

/-- Members of a nonempty JSON object after the opening brace: quoted
keys, colons and values separated by commas, terminated by a closing
brace. -/
def jsonObjElems : Nat → List Char → List (String × Json) → Option (Json × List Char)
  | 0, _, _ => none
  | fuel + 1, cs, acc =>
    match skipWs cs with
    | '\x22' :: rest =>
      match jsonStringBody [] rest with
      | none => none
      | some (k, r) =>
        match skipWs r with
        | ':' :: r2 =>
          match jsonValue fuel r2 with
          | none => none
          | some (v, r3) =>
            match skipWs r3 with
            | ',' :: r4 => jsonObjElems fuel r4 ((k, v) :: acc)
            | '\x7d' :: r4 => some (Json.obj ((k, v) :: acc).reverse, r4)
            | _ => none
        | _ => none
    | _ => none

end

/-- JSON.parse on a whole string: one value, possibly surrounded by
whitespace; anything else (including trailing characters) is a
SyntaxError, modelled as none. The fuel bound is generous: every two
units of fuel consume at least one input character. -/
def jsonParse (s : String) : Option Json :=
  match jsonValue (2 * s.length + 8) s.data with
  | some (v, rest) => if (skipWs rest).isEmpty then some v else none
  | none => none

/- ===================== Session restore on process start ===================== -/

/-- Restore of the AuthProvider on process start (AuthContext.tsx lines
499-504): the user initializer reads the identity entry from durable
storage and evaluates `stored ? JSON.parse(stored) : null` (a missing or
empty entry yields null; a nonempty entry is parsed, and a SyntaxError in
JSON.parse propagates out of the initializer, modelled as none); the token
initializer reads the credential entry as-is. The result is the pair of
the parsed identity and the raw token. -/
def restoreSession (storedUser storedToken : Option String) :
    Option (Option Json × Option String) :=
  match storedUser with
  | none => some (none, storedToken)
  | some s =>
    if s == "" then some (none, storedToken)
    else
      match jsonParse s with
      | some v => some (some v, storedToken)
      | none => none

/-- isAuthenticated evaluated on a restored session: `!!token && !!user`
with user the parsed JSON identity and token the raw stored string. -/
def isAuthenticatedRestored (p : Option Json × Option String) : Bool :=
  (match p.2 with
   | none => false
   | some t => t != "") &&
  (match p.1 with
   | none => false
   | some v => jsTruthy v)

/- ===================== Patient records (React app) ===================== -/

/-- Patient record of frontend/services/api.ts (interface Patient): id is
optional (absent on a draft, assigned by the server), stroke_prediction
and stroke are optional; numeric measurements are modelled as rationals. -/
structure Patient where
  id : Option Nat
  name : String
  age : ℚ
  gender : String
  hypertension : Nat
  heart_disease : Nat
  ever_married : String
  work_type : String
  residence_type : String
  avg_glucose_level : ℚ
  bmi : ℚ
  smoking_status : String
  stroke_prediction : Option ℚ
  stroke : Option Nat
  deriving DecidableEq, Repr

/-- Draft of a patient record as submitted by the modal form, the
TypeScript type Omit of Patient and id: every field of Patient except the
identifier. -/
structure PatientDraft where
  name : String
  age : ℚ
  gender : String
  hypertension : Nat
  heart_disease : Nat
  ever_married : String
  work_type : String
  residence_type : String
  avg_glucose_level : ℚ
  bmi : ℚ
  smoking_status : String
  stroke_prediction : Option ℚ
  stroke : Option Nat
  deriving DecidableEq, Repr

/-- Destructuring `const (id, ...rest) = initialData` of
PatientModal.tsx line 34: every field of the patient except id is copied
into the form data. -/
def stripId (p : Patient) : PatientDraft :=
  { name := p.name, age := p.age, gender := p.gender,
    hypertension := p.hypertension, heart_disease := p.heart_disease,
    ever_married := p.ever_married, work_type := p.work_type,
    residence_type := p.residence_type, avg_glucose_level := p.avg_glucose_level,
    bmi := p.bmi, smoking_status := p.smoking_status,
    stroke_prediction := p.stroke_prediction, stroke := p.stroke }

/-- JSON.stringify of a patient draft, as the request body of addPatient:
the enumerable own keys of the draft object with their values; an
undefined optional field contributes no key at all. -/
def serializeDraft (d : PatientDraft) : List (String × Json) :=
  [("name", Json.str d.name),
   ("age", Json.num d.age),
   ("gender", Json.str d.gender),
   ("hypertension", Json.num (d.hypertension : ℚ)),
   ("heart_disease", Json.num (d.heart_disease : ℚ)),
   ("ever_married", Json.str d.ever_married),
   ("work_type", Json.str d.work_type),
   ("residence_type", Json.str d.residence_type),
   ("avg_glucose_level", Json.num d.avg_glucose_level),
   ("bmi", Json.num d.bmi),
   ("smoking_status", Json.str d.smoking_status)] ++
  (match d.stroke_prediction with
   | some q => [("stroke_prediction", Json.num q)]
   | none => []) ++
  (match d.stroke with
   | some n => [("stroke", Json.num (n : ℚ))]
   | none => [])

/-- HTTP request as assembled by the api.ts service functions. -/
structure HttpRequest where
  method : String
  url : String
  headers : List (String × String)
  body : List (String × Json)

/-- addPatient of frontend/services/api.ts lines 140-148: a POST to the
patients collection url with the JSON-serialized draft as body and the
bearer token header; the draft type omits id, so no identifier is sent. -/
def addPatientRequest (patientData : PatientDraft) (token : String) : HttpRequest :=
  { method := "POST",
    url := "http://localhost:5000/api/patients/",
    headers := [("Content-Type", "application/json"),
                ("Authorization", "Bearer " ++ token)],
    body := serializeDraft patientData }

/- ===================== Dashboard aggregates and filter ===================== -/

/-- Count of the pie-chart bin named Stroke in pages/Dashboard.tsx line
171: patients with `stroke === 1 || stroke_prediction === 1`. -/
def strokeStatsStrokeCount (ps : List Patient) : Nat :=
  (ps.filter (fun p =>
    decide (p.stroke = some 1) || decide (p.stroke_prediction = some 1))).length

/-- JavaScript falsiness of the optional stroke_prediction field, as
tested by `!p.stroke_prediction`: undefined and zero are falsy. -/
def predictionFalsy : Option ℚ → Bool
  | none => true
  | some q => q == 0

/-- Count of the pie-chart bin named No Stroke in pages/Dashboard.tsx line
172: patients with `stroke === 0 || stroke_prediction === 0 ||
!stroke_prediction`. -/
def strokeStatsNoStrokeCount (ps : List Patient) : Nat :=
  (ps.filter (fun p =>
    decide (p.stroke = some 0) || decide (p.stroke_prediction = some 0) ||
      predictionFalsy p.stroke_prediction)).length

/-- Count of the header card named Stroke Risk Observed in
pages/Dashboard.tsx line 219: patients with `stroke === 1`. -/
def strokeRiskObservedCount (ps : List Patient) : Nat :=
  (ps.filter (fun p => decide (p.stroke = some 1))).length

/-- Denominator `patients.length || 1` of the two mean cards in
pages/Dashboard.tsx lines 207 and 213: the length when nonzero, one for an
empty cache. -/
def lengthOr1 (ps : List Patient) : Nat :=
  if ps.length = 0 then 1 else ps.length

/-- Average-glucose card of pages/Dashboard.tsx line 207: the field sum
divided by `patients.length || 1`. -/
def avgGlucoseLevelStat (ps : List Patient) : ℚ :=
  (ps.map Patient.avg_glucose_level).sum / (lengthOr1 ps : ℚ)

/-- Average-age card of pages/Dashboard.tsx line 213: the field sum
divided by `patients.length || 1`. -/
def avgAgeStat (ps : List Patient) : ℚ :=
  (ps.map Patient.age).sum / (lengthOr1 ps : ℚ)

/-- Total-patients card of pages/Dashboard.tsx line 202: the cache
length. -/
def totalPatientsStat (ps : List Patient) : Nat :=
  ps.length

/-- Predicate deciding whether the character list sub is a prefix of the
character list hay, comparing characters left to right. -/
def charsHavePrefix : List Char → List Char → Bool
  | [], _ => true
  | _ :: _, [] => false
  | a :: as, b :: bs => a == b && charsHavePrefix as bs

/-- Predicate deciding whether sub occurs as a contiguous substring of
hay, the semantics of the JavaScript String.includes method. -/
def charsContain : List Char → List Char → Bool
  | [], sub => sub.isEmpty
  | c :: cs, sub => charsHavePrefix sub (c :: cs) || charsContain cs sub

/-- String.includes of JavaScript: true when the second string occurs
contiguously inside the first. -/
def jsIncludes (hay sub : String) : Bool :=
  charsContain hay.data sub.data

/-- toLowerCase of JavaScript, modelled character by character. -/
def jsToLower (s : String) : String :=
  String.mk (s.data.map Char.toLower)

/-- filteredPatients of pages/Dashboard.tsx lines 163-167: keep the
patients whose lower-cased name contains the lower-cased search term, or
whose lower-cased gender contains it, or whose identifier rendered as a
string contains the raw term; a missing id makes its disjunct undefined,
hence falsy. -/
def filteredPatients (searchTerm : String) (ps : List Patient) : List Patient :=
  ps.filter (fun p =>
    jsIncludes (jsToLower p.name) (jsToLower searchTerm) ||
    jsIncludes (jsToLower p.gender) (jsToLower searchTerm) ||
    (match p.id with
     | some n => jsIncludes (toString n) searchTerm
     | none => false))

/- ===================== Dashboard fetch state ===================== -/

/-- Component state of pages/Dashboard.tsx relevant to fetching: the
patients cache, the error message (empty string when clear) and the
loading flag. -/
structure DashState where
  patients : List Patient
  error : String
  isLoading : Bool
  deriving DecidableEq, Repr

/-- Result of the awaited api.fetchPatients call: the patient list on
success, or a thrown error. -/
inductive FetchResult
  | ok (data : List Patient)
  | err (e : String)

/-- fetchPatients of pages/Dashboard.tsx lines 102-122: with no token it
sets the no-token error and stops loading; otherwise it clears the error,
and on success stores the received list (an array is always truthy, so
setPatients always runs) while on a thrown error it sets the fixed
connection message; the cache field is written only on the success path,
and the finally clause stops loading. -/
def fetchPatientsStep (s : DashState) (token : Option String) (r : FetchResult) :
    DashState :=
  match token with
  | none => { s with error := "No authentication token found", isLoading := false }
  | some _ =>
    match r with
    | FetchResult.ok data => { patients := data, error := "", isLoading := false }
    | FetchResult.err _ =>
      { s with
        error := "Could not connect to the server. Is the Flask backend running?",
        isLoading := false }

/- ===================== Legacy localStorage app ===================== -/

/-- Patient record of the legacy localStorage app (part_000): string
identifier and demographic fields. -/
structure LegacyPatient where
  id : String
  name : String
  dob : String
  gender : String
  address : String
  ward : String
  admissionDate : String
  doctor : String
  deriving DecidableEq, Repr

/-- Form fields of the legacy add form: every field of a legacy patient
except the identifier. -/
structure LegacyForm where
  name : String
  dob : String
  gender : String
  address : String
  ward : String
  admissionDate : String
  doctor : String
  deriving DecidableEq, Repr

/-- Removal of the first occurrence of the letter P from a character
list, the semantics of the JavaScript replace with a string pattern in
`lastId.replace('P', '')`. -/
def removeFirstP : List Char → List Char
  | [] => []
  | c :: cs => if c == 'P' then cs else c :: removeFirstP cs

/-- parseInt with radix ten on the identifier remainder: the leading run
of decimal digits, or none (NaN) when there is none. -/
def jsParseIntNat (s : String) : Option Nat :=
  let digits := s.data.takeWhile Char.isDigit
  if digits.isEmpty then none else some (digitsToNat digits)

/-- padStart of JavaScript with a pad character: prepend copies of the
character until the target length is reached. -/
def padStart (s : String) (n : Nat) (c : Char) : String :=
  String.mk (List.replicate (n - s.length) c) ++ s

/-- generatePatientId of part_000 lines 166-174: P00001 for an empty
store, otherwise the trailing number of the last identifier plus one,
padded to five digits behind a letter P (a non-numeric remainder gives
NaN, which stringifies under padStart to 00NaN). -/
def generatePatientId (patients : List LegacyPatient) : String :=
  if patients.length = 0 then "P00001"
  else
    let lastId := ((patients.getLast?).map LegacyPatient.id).getD ""
    match jsParseIntNat (String.mk (removeFirstP lastId.data)) with
    | some lastNumber => "P" ++ padStart (toString (lastNumber + 1)) 5 '0'
    | none => "P" ++ padStart "NaN" 5 '0'

/-- Record built by the create branch of the legacy handleFormSubmission
(part_000 lines 120-129): the identifier is computed client-side by
generatePatientId, the other fields come from the form. -/
def legacyNewRecord (patients : List LegacyPatient) (form : LegacyForm) : LegacyPatient :=
  { id := generatePatientId patients,
    name := form.name, dob := form.dob, gender := form.gender,
    address := form.address, ward := form.ward,
    admissionDate := form.admissionDate, doctor := form.doctor }

/-- Create path of the legacy handleFormSubmission (part_000 lines
134-139): push the new record and save the whole list to localStorage. -/
def legacyCreate (patients : List LegacyPatient) (form : LegacyForm) : List LegacyPatient :=
  patients ++ [legacyNewRecord patients form]

/- ===================== Concrete sample data ===================== -/

/-- Sample patient used by concrete witnesses and counterexamples. -/
def basePatient : Patient :=
  { id := some 1, name := "Jane Doe", age := 61, gender := "Female",
    hypertension := 0, heart_disease := 0, ever_married := "Yes",
    work_type := "Private", residence_type := "Urban",
    avg_glucose_level := 100, bmi := 25,
    smoking_status := "never smoked",
    stroke_prediction := none, stroke := some 0 }

/-- Sample legacy form used by concrete counterexamples. -/
def sampleLegacyForm : LegacyForm :=
  { name := "Jane Doe", dob := "1985-04-21", gender := "female",
    address := "10 Downing St", ward := "General",
    admissionDate := "2025-12-20", doctor := "Dr. Lee" }

/- ===================== Helper lemmas ===================== -/

/-- Auxiliary: with the modal gate off and the modal closed, any sequence
of Dashboard UI events keeps the modal closed and emits no mutation
request. -/
theorem dashboardUiRun_gated (events : List UiEvent) :
    dashboardUiRun false false events = (false, 0) := by
  induction events with
  | nil => rfl
  | cons e es ih => cases e <;> simp [dashboardUiRun, dashboardUiStep, ih]

/-- Auxiliary: every character list contains the empty substring. -/
theorem charsContain_nil (l : List Char) : charsContain l [] = true := by
  cases l <;> rfl

/-- Auxiliary: every string includes the empty string. -/
theorem jsIncludes_empty (s : String) : jsIncludes s "" = true :=
  charsContain_nil s.data

/-- Auxiliary: a string that is not one of the three own keys of the
permission table has no own entry. -/
theorem permissionsLookup_eq_none (r : String)
    (h : r ∉ permissionsTable.map Prod.fst) : permissionsLookup r = none := by
  simp [permissionsTable] at h
  push_neg at h
  obtain ⟨h1, h2, h3⟩ := h
  have e1 : ("administrator" == r) = false := beq_eq_false_iff_ne.mpr fun hh => h1 hh.symm
  have e2 : ("doctor" == r) = false := beq_eq_false_iff_ne.mpr fun hh => h2 hh.symm
  have e3 : ("viewer" == r) = false := beq_eq_false_iff_ne.mpr fun hh => h3 hh.symm
  simp [permissionsLookup, permissionsTable, List.find?, e1, e2, e3]


/- ===================== Claim theorems ===================== -/

/-- C1, counterexample: at role doctor the permission set computed by the
script.js client gate differs from the spec reference table (canEdit is
denied by the table but granted by the reference policy) and from the
React Dashboard gate, and the script.js permission table has three roles,
not two; so the claim that the policy has exactly two roles with no drift
across evaluation points is false. -/
theorem c1_counterexample :
    (getCurrentPermissions (some "doctor")).canEdit = false ∧
    (specPolicy SpecRole.privilegedEditor).canEdit = true ∧
    dashboardPerms
        (some { id := 1, username := "doc", email := "doc@example.com", role := "doctor" }) ≠
      getCurrentPermissions (some "doctor") ∧
    permissionsTable.map Prod.fst = ["administrator", "doctor", "viewer"] := by
  decide

/-- C1, amended: the React Dashboard UI gate realizes exactly the two-role
reference table (role user views only, role doctor holds all four
permissions), but the legacy script.js permission table drifts from the
reference table at role doctor (it denies canEdit and canDelete) and
carries a third role, administrator. -/
theorem c1_policy_amended :
    (∀ (sr : SpecRole) (u : AuthUser), u.role = specRoleName sr →
        dashboardPerms (some u) = specPolicy sr) ∧
    getCurrentPermissions (some "doctor") ≠ specPolicy SpecRole.privilegedEditor := by
  constructor
  · intro sr u h
    cases sr <;> simp_all [dashboardPerms, canModify, specRoleName, specPolicy]
  · decide

/-- C1, witness: the amended agreement instantiated at a concrete doctor
user, next to the concrete drift of the script.js table. -/
theorem c1_policy_amended_witness :
    dashboardPerms
        (some { id := 1, username := "doc", email := "doc@example.com", role := "doctor" }) =
      specPolicy SpecRole.privilegedEditor ∧
    getCurrentPermissions (some "doctor") ≠ specPolicy SpecRole.privilegedEditor :=
  ⟨c1_policy_amended.1 SpecRole.privilegedEditor
      { id := 1, username := "doc", email := "doc@example.com", role := "doctor" } rfl,
    c1_policy_amended.2⟩

/-- C2: isAuthenticated is computed from the presence (JavaScript
truthiness) of the credential and the identity, never stored; a completed
login or register stores both fields, logout clears both fields, and a
failed login or register changes nothing, so after any completed
session-changing call the two fields are both set or both clear - a state
with exactly one of them set is never produced. -/
theorem c2_session_invariant :
    (∀ s : AuthState, isAuthenticated s = (credentialPresent s && identityPresent s)) ∧
    (∀ (r : AuthResponse) (s : AuthState),
        (applyAuthOp (AuthOp.loginOk r) s).user = some r.user ∧
        (applyAuthOp (AuthOp.loginOk r) s).token = some r.token) ∧
    (∀ (r : AuthResponse) (s : AuthState),
        (applyAuthOp (AuthOp.registerOk r) s).user = some r.user ∧
        (applyAuthOp (AuthOp.registerOk r) s).token = some r.token) ∧
    (∀ s : AuthState,
        (applyAuthOp AuthOp.logout s).user = none ∧
        (applyAuthOp AuthOp.logout s).token = none) ∧
    (∀ s : AuthState,
        applyAuthOp AuthOp.loginFail s = s ∧ applyAuthOp AuthOp.registerFail s = s) ∧
    (∀ (op : AuthOp) (s : AuthState),
        (applyAuthOp op s).user.isSome = (applyAuthOp op s).token.isSome ∨
          applyAuthOp op s = s) := by
  refine ⟨fun s => rfl, fun r s => ⟨rfl, rfl⟩, fun r s => ⟨rfl, rfl⟩,
    fun s => ⟨rfl, rfl⟩, fun s => ⟨rfl, rfl⟩, ?_⟩
  intro op s
  cases op <;> simp [applyAuthOp]

/-- C3: a create or update submitted in script.js under a role whose
permissions deny that operation ends in the client-side permission-denied
outcome with zero network calls issued; and in the React Dashboard a user
whose role is not doctor has no Add or Edit affordance, so from the closed
modal no sequence of UI events ever emits a mutation request. -/
theorem c3_denied_mutation_no_network :
    (∀ (userRole : Option String) (patientIdField : String),
        (if patientIdField != "" then (getCurrentPermissions userRole).canEdit = false
         else (getCurrentPermissions userRole).canAdd = false) →
        handleFormSubmissionScript userRole patientIdField =
          (MutationOutcome.permissionDenied
            (if patientIdField != "" then "Permission Denied: You cannot update records."
             else "Permission Denied: You cannot add new records."), 0)) ∧
    (∀ u : AuthUser, u.role ≠ "doctor" →
        ∀ events : List UiEvent,
          dashboardUiRun (canModify (some u)) false events = (false, 0)) := by
  constructor
  · intro userRole pid h
    by_cases hp : (pid != "") = true
    · rw [if_pos hp] at h
      simp [handleFormSubmissionScript, hp, h]
    · rw [if_neg hp] at h
      have hp2 : (pid != "") = false := by simpa using hp
      simp [handleFormSubmissionScript, hp2, h]
  · intro u hu events
    have hcm : canModify (some u) = false := by
      simp [canModify, beq_eq_false_iff_ne]
      exact hu
    rw [hcm]
    exact dashboardUiRun_gated events

/-- C3, witness: the restricted viewer role attempting a create in
script.js is denied with zero network calls, and a user-role session in
the React Dashboard emits no mutation request for a concrete event
sequence. -/
theorem c3_denied_mutation_no_network_witness :
    handleFormSubmissionScript (some "user") "" =
      (MutationOutcome.permissionDenied "Permission Denied: You cannot add new records.", 0) ∧
    dashboardUiRun
        (canModify (some { id := 7, username := "u", email := "u@example.com", role := "user" }))
        false [UiEvent.clickAdd, UiEvent.submit] = (false, 0) := by
  have h := c3_denied_mutation_no_network
  refine ⟨?_, h.2 { id := 7, username := "u", email := "u@example.com", role := "user" }
    (by decide) [UiEvent.clickAdd, UiEvent.submit]⟩
  have h1 := h.1 (some "user") "" (by decide)
  simpa using h1

/-- C10, counterexample: the role string toString is not a key of the
permission table, yet the lookup does not return the viewer permission
set: the truthy toString member inherited from Object.prototype preempts
the viewer fallback of `permissions[userRole] || permissions.viewer`, and
the canView read on it is undefined, hence falsy - so the claim that
every non-key role string yields the viewer set with canView true is
false. -/
theorem c10_counterexample :
    "toString" ∉ permissionsTable.map Prod.fst ∧
    getCurrentPermsValue (some "toString") = PropAccess.protoMember "toString" ∧
    getCurrentPermissions (some "toString") ≠ viewerPerm ∧
    (getCurrentPermissions (some "toString")).canView = false := by
  decide

/-- C10, amended: a null role, or a role string that is neither a key of
the permission table nor the name of a member inherited from
Object.prototype, falls back to the viewer entry (canView true, every
mutating permission false); a role string naming an inherited
Object.prototype member selects that truthy member instead, on which
every permission field reads as undefined, hence falsy; in either case a
role that is not a key of the table is never granted a mutating
permission by the client gate. -/
theorem c10_unknown_role_amended :
    getCurrentPermissions none = viewerPerm ∧
    (∀ r : String, r ∉ permissionsTable.map Prod.fst → r ∉ objectProtoNames →
        getCurrentPermissions (some r) = viewerPerm) ∧
    (∀ r : String, r ∈ objectProtoNames →
        getCurrentPermsValue (some r) = PropAccess.protoMember r ∧
        (getCurrentPermissions (some r)).canView = false) ∧
    (∀ r : String, r ∉ permissionsTable.map Prod.fst →
        (getCurrentPermissions (some r)).canAdd = false ∧
        (getCurrentPermissions (some r)).canEdit = false ∧
        (getCurrentPermissions (some r)).canDelete = false) := by
  refine ⟨rfl, ?_, ?_, ?_⟩
  · intro r hk hp
    have hl := permissionsLookup_eq_none r hk
    simp [getCurrentPermissions, getCurrentPermsValue, permissionsAccess, hl, hp,
      propTruthy, permFields]
  · intro r hr
    simp only [objectProtoNames, List.mem_cons, List.not_mem_nil, or_false] at hr
    rcases hr with rfl | rfl | rfl | rfl | rfl | rfl | rfl | rfl | rfl | rfl | rfl | rfl <;>
      exact ⟨rfl, rfl⟩
  · intro r hk
    have hl := permissionsLookup_eq_none r hk
    by_cases hp : r ∈ objectProtoNames <;>
      refine ⟨?_, ?_, ?_⟩ <;>
        simp [getCurrentPermissions, getCurrentPermsValue, permissionsAccess, hl, hp,
          propTruthy, permFields, viewerPerm]

/-- C10, witness: the amended fallback at the concrete unknown role guest,
and the prototype preemption at the concrete role toString. -/
theorem c10_unknown_role_amended_witness :
    getCurrentPermissions (some "guest") = viewerPerm ∧
    (getCurrentPermissions (some "toString")).canView = false ∧
    (getCurrentPermissions (some "toString")).canAdd = false :=
  ⟨c10_unknown_role_amended.2.1 "guest" (by decide) (by decide),
    (c10_unknown_role_amended.2.2.1 "toString" (by decide)).2,
    (c10_unknown_role_amended.2.2.2 "toString" (by decide)).1⟩

/-- C4, counterexample: the create path of the legacy localStorage app
synthesizes the record identifier on the client - generatePatientId
computes P00001 for an empty store and guesses the successor P00457 after
P00456, and the record the client persists carries that client-made
identifier - so the claim that the client-side create path never
synthesizes or transmits an identifier is false. -/
theorem c4_counterexample :
    (legacyNewRecord [] sampleLegacyForm).id = "P00001" ∧
    legacyCreate [] sampleLegacyForm = [legacyNewRecord [] sampleLegacyForm] ∧
    generatePatientId
        [{ id := "P00456", name := "John Smith", dob := "1992-07-15", gender := "male",
           address := "42 Wallaby Way", ward := "ICU", admissionDate := "2025-12-01",
           doctor := "Dr. Chen" }] = "P00457" := by
  refine ⟨rfl, rfl, rfl⟩

/-- C4, amended: the API-backed create path transmits no identifier (the
serialized addPatient body never contains an id key, and the modal draft
obtained by stripping an existing record carries no id field), but the
legacy localStorage create path assigns the identifier client-side via
generatePatientId. -/
theorem c4_create_id_amended :
    (∀ (d : PatientDraft) (t : String),
        "id" ∉ (addPatientRequest d t).body.map Prod.fst) ∧
    (∀ p : Patient, "id" ∉ (serializeDraft (stripId p)).map Prod.fst) ∧
    (∀ (ps : List LegacyPatient) (f : LegacyForm),
        (legacyNewRecord ps f).id = generatePatientId ps) := by
  have hkeys : ∀ d : PatientDraft, "id" ∉ (serializeDraft d).map Prod.fst := by
    intro d
    obtain ⟨nm, ag, ge, hy, hd, em, wt, rt, gl, bm, sm, sp, st⟩ := d
    cases sp <;> cases st <;> simp [serializeDraft]
  exact ⟨fun d t => hkeys d, fun p => hkeys (stripId p), fun ps f => rfl⟩

/-- C5, counterexample: the pie-chart bin named Stroke counts a patient
whose stroke field is zero but whose stroke_prediction equals one, and
also counts a patient with a prior stroke and zero prediction, so one
aggregate responds to both fields; the claim that no aggregate conflates
the two stroke signals is false (and no separate positive-threshold count
of the prediction exists). -/
theorem c5_counterexample :
    strokeStatsStrokeCount
        [{ basePatient with stroke := some 0, stroke_prediction := some 1 }] = 1 ∧
    strokeRiskObservedCount
        [{ basePatient with stroke := some 0, stroke_prediction := some 1 }] = 0 ∧
    strokeStatsStrokeCount
        [{ basePatient with stroke := some 1, stroke_prediction := some 0 }] = 1 := by
  refine ⟨rfl, rfl, rfl⟩

/-- C5, amended: the header card Stroke Risk Observed is a pure
prior-incident count - it only reads the stroke field, being invariant
under arbitrary rewrites of stroke_prediction - while the pie-chart bin
conflates the two fields: the prior-incident count is always a sub-count
of that bin. -/
theorem c5_stroke_counts_amended :
    (∀ (ps : List Patient) (f : Patient → Option ℚ),
        strokeRiskObservedCount
            (ps.map (fun p => { p with stroke_prediction := f p })) =
          strokeRiskObservedCount ps) ∧
    (∀ ps : List Patient, strokeRiskObservedCount ps ≤ strokeStatsStrokeCount ps) := by
  constructor
  · intro ps f
    induction ps with
    | nil => rfl
    | cons p rest ih =>
      simp only [List.map_cons, strokeRiskObservedCount, List.filter_cons] at ih ⊢
      by_cases h : p.stroke = some 1 <;> simp [h, ih]
  · intro ps
    induction ps with
    | nil => simp [strokeRiskObservedCount, strokeStatsStrokeCount]
    | cons p rest ih =>
      simp only [strokeRiskObservedCount, strokeStatsStrokeCount, List.filter_cons] at ih ⊢
      by_cases h : p.stroke = some 1 <;> by_cases h2 : p.stroke_prediction = some 1 <;>
        simp [h, h2] <;> omega

/-- C6: a failing refresh - a missing token or a thrown list fetch -
leaves the patients cache exactly as it was and records a nonempty error
message in the separate error field. -/
theorem c6_refresh_failure_frame (s : DashState) (token : Option String) (r : FetchResult)
    (h : token = none ∨ ∃ m, r = FetchResult.err m) :
    (fetchPatientsStep s token r).patients = s.patients ∧
    (fetchPatientsStep s token r).error ≠ "" := by
  rcases h with h | ⟨m, hm⟩
  · subst h
    exact ⟨rfl, by simp [fetchPatientsStep]⟩
  · subst hm
    cases token <;> simp [fetchPatientsStep]

/-- C6, witness: a concrete failing refresh with a missing token and a
concrete thrown fetch both preserve a one-element cache. -/
theorem c6_refresh_failure_frame_witness :
    (fetchPatientsStep { patients := [basePatient], error := "", isLoading := true }
        none (FetchResult.ok [])).patients = [basePatient] ∧
    (fetchPatientsStep { patients := [basePatient], error := "", isLoading := true }
        none (FetchResult.ok [])).error ≠ "" :=
  c6_refresh_failure_frame
    { patients := [basePatient], error := "", isLoading := true }
    none (FetchResult.ok []) (Or.inl rfl)

/-- C7, counterexample: a malformed identity entry in durable storage
makes the restore initializer throw (JSON.parse fails on an unclosed
brace), instead of yielding a non-authenticated session; the claim that a
malformed entry leads to a non-authenticated session with no failure of
the restore itself is false. -/
theorem c7_counterexample :
    restoreSession (some "\x7b") (some "token-string") = none := by
  rfl

/-- C7, amended: a restored session is authenticated only when the stored
credential is a nonempty string and the stored identity parses to a truthy
value; a missing identity entry restores successfully to a
non-authenticated session, a missing credential entry leaves the session
non-authenticated, but a nonempty malformed identity entry makes the
restore itself fail. -/
theorem c7_restore_amended :
    (∀ p : Option Json × Option String,
        isAuthenticatedRestored p = true →
        (∃ tok, p.2 = some tok ∧ tok ≠ "") ∧
        (∃ v, p.1 = some v ∧ jsTruthy v = true)) ∧
    (∀ t, restoreSession none t = some (none, t)) ∧
    (∀ u, isAuthenticatedRestored (u, none) = false) ∧
    (∀ (s : String) (t : Option String), s ≠ "" → jsonParse s = none →
        restoreSession (some s) t = none) := by
  refine ⟨?_, fun t => rfl, fun u => rfl, ?_⟩
  · rintro ⟨pu, pt⟩ ha
    simp only [isAuthenticatedRestored, Bool.and_eq_true] at ha
    obtain ⟨ht, hu⟩ := ha
    constructor
    · cases pt with
      | none => exact absurd ht (by simp)
      | some t =>
        refine ⟨t, rfl, ?_⟩
        simpa using ht
    · cases pu with
      | none => exact absurd hu (by simp)
      | some v => exact ⟨v, rfl, hu⟩
  · intro s t hs hp
    have hb : (s == "") = false := beq_eq_false_iff_ne.mpr hs
    simp [restoreSession, hb, hp]

/-- C7, witness: a truthy restored pair forces a nonempty token and a
truthy parsed identity, and a concrete malformed nonempty identity entry
makes the restore fail. -/
theorem c7_restore_amended_witness :
    ((∃ tok, (some "tok" : Option String) = some tok ∧ tok ≠ "") ∧
      (∃ v, (some (Json.obj []) : Option Json) = some v ∧ jsTruthy v = true)) ∧
    restoreSession (some "not json") (some "tok") = none :=
  ⟨c7_restore_amended.1 (some (Json.obj []), some "tok") rfl,
    c7_restore_amended.2.2.2 "not json" (some "tok") (by decide) rfl⟩

/-- C8: the aggregates over an empty cache are defined without a
division-by-zero artifact - the total count is zero, both means evaluate
to zero because the denominator expression treats an empty cache as one,
and the denominator is positive for every cache. -/
theorem c8_empty_cache_aggregates :
    totalPatientsStat [] = 0 ∧
    avgGlucoseLevelStat [] = 0 ∧
    avgAgeStat [] = 0 ∧
    lengthOr1 [] = 1 ∧
    (∀ ps : List Patient, 0 < lengthOr1 ps) := by
  refine ⟨rfl, ?_, ?_, rfl, ?_⟩
  · simp [avgGlucoseLevelStat, lengthOr1]
  · simp [avgAgeStat, lengthOr1]
  · intro ps
    unfold lengthOr1
    split <;> omega

/-- C9: the client-side filter applied with the empty query returns the
whole cache unchanged and in its original order; the filter is a pure
function on the cache - the cache value it receives is not modified. -/
theorem c9_filter_empty_query :
    ∀ ps : List Patient, filteredPatients "" ps = ps := by
  intro ps
  apply List.filter_eq_self.mpr
  intro p _
  have h : jsToLower "" = "" := rfl
  simp [h, jsIncludes_empty]
